import Mathlib

/-!
Shallow embedding of the document-pane scroll-synchronization script
(scroll-sync.js) and of the middle scroll control component
(src/components/MiddleScrollControl.jsx), with theorems about their
behaviour.  JS numbers are modelled as rationals and `Math.round` as
`jround` (round half up, which is what JS does for the values at hand).
-/

namespace ScrollSync

/-- JS `Math.round`: round half towards positive infinity. -/
def jround (x : ℚ) : ℤ := (x + 1 / 2).floor

/-- A scrollable element's measurements: current offsets (`scrollTop`,
`scrollLeft`), content extents (`scrollHeight`, `scrollWidth`) and visible
extents (`clientHeight`, `clientWidth`). -/
structure Pane where
  scrollTop : ℚ
  scrollLeft : ℚ
  scrollHeight : ℚ
  clientHeight : ℚ
  scrollWidth : ℚ
  clientWidth : ℚ
deriving Repr, DecidableEq

/-- Vertical max scroll with the floor of 1, as computed at scroll-sync.js
lines 107 and 110: `Math.max(1, scrollHeight - clientHeight)`. -/
def maxScrollTop1 (p : Pane) : ℚ := max 1 (p.scrollHeight - p.clientHeight)

/-- Horizontal max scroll with the floor of 1 (scroll-sync.js lines 108, 111). -/
def maxScrollLeft1 (p : Pane) : ℚ := max 1 (p.scrollWidth - p.clientWidth)

/-- Result of one `syncScroll` call: the guard flag as it stands right after
the call (the 50 ms settle timeout that later clears it is modelled
separately), the target pane after any mutation, and whether the target's
offsets were assigned during this call. -/
structure SyncScrollResult where
  isScrolling : Bool
  target : Pane
  didSetScrollOffset : Bool
deriving Repr, DecidableEq

/-- Embedding of `syncScroll` (scroll-sync.js lines 98-132).  If the guard
flag is set or sync is disabled it returns at once with no mutation;
otherwise it sets the guard flag, computes the source ratios against
`max(1, content - visible)` denominators and assigns
`Math.round(targetMax * ratio)` to both of the target's offsets. -/
def syncScroll (isScrolling syncEnabled : Bool) (sourcePane targetPane : Pane) :
    SyncScrollResult :=
  if isScrolling || !syncEnabled then
    ⟨isScrolling, targetPane, false⟩
  else
    let topFrac := sourcePane.scrollTop / maxScrollTop1 sourcePane
    let leftFrac := sourcePane.scrollLeft / maxScrollLeft1 sourcePane
    let targetScrollTop := jround (maxScrollTop1 targetPane * topFrac)
    let targetScrollLeft := jround (maxScrollLeft1 targetPane * leftFrac)
    ⟨true,
     { targetPane with
        scrollTop := (targetScrollTop : ℚ),
        scrollLeft := (targetScrollLeft : ℚ) },
     true⟩

/-- Embedding of `toggleSync` (scroll-sync.js lines 163-167) acting on the
`syncEnabled` flag. -/
def toggleSync (syncEnabled : Bool) : Bool := !syncEnabled

/-- Which of the two bound panes a scroll event fired on. -/
inductive PaneId where
  | left
  | right
deriving Repr, DecidableEq

/-- The module state relevant to event handling: the two bound panes and the
two flags (scroll-sync.js lines 32-35). -/
structure EngineState where
  leftPane : Pane
  rightPane : Pane
  isScrolling : Bool
  syncEnabled : Bool
deriving Repr, DecidableEq

/-- One scroll event during a pass: the listener attached at scroll-sync.js
lines 145-146 runs `syncScroll` from the event's pane to the opposite pane.
Returns the updated state and whether the opposite pane's offsets were
assigned. -/
def handleEvent (s : EngineState) (src : PaneId) : EngineState × Bool :=
  match src with
  | PaneId.left =>
    let r := syncScroll s.isScrolling s.syncEnabled s.leftPane s.rightPane
    ({ s with rightPane := r.target, isScrolling := r.isScrolling }, r.didSetScrollOffset)
  | PaneId.right =>
    let r := syncScroll s.isScrolling s.syncEnabled s.rightPane s.leftPane
    ({ s with leftPane := r.target, isScrolling := r.isScrolling }, r.didSetScrollOffset)

/-- How many times each pane's offsets were assigned while processing a
sequence of events. -/
structure MutationCounts where
  leftCount : ℕ
  rightCount : ℕ
deriving Repr, DecidableEq

/-- Processes a list of scroll events in order with no settle timeout firing
in between (the deferred callback at scroll-sync.js lines 129-131 has not yet
run), counting offset assignments per pane.  An event on the left pane, when
it propagates, mutates the right pane, and vice versa. -/
def processEvents (s : EngineState) : List PaneId → EngineState × MutationCounts
  | [] => (s, ⟨0, 0⟩)
  | PaneId.left :: es =>
    let p := handleEvent s PaneId.left
    let rest := processEvents p.1 es
    (rest.1, ⟨rest.2.leftCount, rest.2.rightCount + (if p.2 = true then 1 else 0)⟩)
  | PaneId.right :: es =>
    let p := handleEvent s PaneId.right
    let rest := processEvents p.1 es
    (rest.1, ⟨rest.2.leftCount + (if p.2 = true then 1 else 0), rest.2.rightCount⟩)

/-- React state of the middle scroll control that the claims touch: the
displayed percentage (`scrollPosition`, jsx line 6) and the two containers as
`getElementById` currently resolves them (jsx lines 10-13; `none` models a
missing element). -/
structure ControlState where
  scrollPosition : ℚ
  leftContainer : Option Pane
  rightContainer : Option Pane
deriving Repr, DecidableEq

/-- Embedding of `updateScrollPosition` (jsx lines 15-24): reads the left
container, computes `min(100, max(0, scrollTop / max(1, content - visible) * 100))`
and stores it as the displayed position; returns unchanged when the left
container is missing. -/
def updateScrollPosition (s : ControlState) : ControlState :=
  match s.leftContainer with
  | none => s
  | some left =>
    let maxScroll := max 1 (left.scrollHeight - left.clientHeight)
    let position := min 100 (max 0 (left.scrollTop / maxScroll * 100))
    { s with scrollPosition := position }

/-- Embedding of `scrollToPosition` (jsx lines 26-39): if either container is
missing it returns with no mutation at all; otherwise each pane is smooth-
scrolled to `Math.round(max(0, content - visible) * position / 100)` computed
from that pane's own extents.  The eventual effect of the smooth scroll is
modelled as the pane's new offset; the function touches neither the displayed
`scrollPosition` nor the other fields. -/
def scrollToPosition (s : ControlState) (position : ℚ) : ControlState :=
  match s.leftContainer, s.rightContainer with
  | some left, some right =>
    let leftMaxScroll := max 0 (left.scrollHeight - left.clientHeight)
    let rightMaxScroll := max 0 (right.scrollHeight - right.clientHeight)
    let frac := position / 100
    { s with
        leftContainer := some { left with scrollTop := (jround (leftMaxScroll * frac) : ℚ) },
        rightContainer := some { right with scrollTop := (jround (rightMaxScroll * frac) : ℚ) } }
  | _, _ => s

/-- The clamped percentage computed from a pointer coordinate on the track
(jsx lines 44-46 and 59-61): `min(100, max(0, (clientY - rectTop) / rectHeight * 100))`. -/
def clickPosition (clientY rectTop rectHeight : ℚ) : ℚ :=
  min 100 (max 0 ((clientY - rectTop) / rectHeight * 100))

/-- Embedding of `handleScrollBarClick` (jsx lines 41-49): clamps the click
coordinate to a percentage and calls `scrollToPosition`. -/
def handleScrollBarClick (s : ControlState) (clientY rectTop rectHeight : ℚ) :
    ControlState :=
  scrollToPosition s (clickPosition clientY rectTop rectHeight)

/-- Embedding of `scrollUp` (jsx lines 70-73): `max(0, scrollPosition - 10)`
then `scrollToPosition`. -/
def scrollUp (s : ControlState) : ControlState :=
  scrollToPosition s (max 0 (s.scrollPosition - 10))

/-- Embedding of `scrollDown` (jsx lines 75-78): `min(100, scrollPosition + 10)`
then `scrollToPosition`. -/
def scrollDown (s : ControlState) : ControlState :=
  scrollToPosition s (min 100 (s.scrollPosition + 10))

/-- Embedding of `resetScroll` (jsx lines 80-82): `scrollToPosition(0)`. -/
def resetScroll (s : ControlState) : ControlState :=
  scrollToPosition s 0

/-- The module-level pane references of scroll-sync.js (lines 32-33), as
element identities (a `querySelector` result or `none`). -/
structure PaneRefs where
  leftRef : Option ℕ
  rightRef : Option ℕ
deriving Repr, DecidableEq

/-- The two distinct errors `setPanes` can report (scroll-sync.js lines 84, 89). -/
inductive SetPanesError where
  | leftNotFound
  | rightNotFound
deriving Repr, DecidableEq

/-- Embedding of `setPanes` (scroll-sync.js lines 79-95).  Selectors and
elements are identities (naturals); `querySelector` is the document's lookup.
The source assigns `document.querySelector` results to BOTH module variables
at lines 80-81 before any check, discarding the previous references `prev`;
it then validates left first, then right, returning `false` with the
side's distinct error. -/
def setPanes (querySelector : ℕ → Option ℕ) (prev : PaneRefs) (lSel rSel : ℕ) :
    PaneRefs × Bool × Option SetPanesError :=
  let refs : PaneRefs := ⟨querySelector lSel, querySelector rSel⟩
  match refs.leftRef with
  | none => (refs, false, some SetPanesError.leftNotFound)
  | some _ =>
    match refs.rightRef with
    | none => (refs, false, some SetPanesError.rightNotFound)
    | some _ => (refs, true, none)

/-- The scroll-listener lists of the two bound panes together with a supply
of fresh closure identities.  Every arrow function the script creates at
runtime is a distinct closure; DOM `addEventListener` registers the closure,
and `removeEventListener` removes a listener only when it is the very same
closure, so a freshly created arrow function matches nothing already
registered. -/
structure ListenerState where
  leftListeners : List ℕ
  rightListeners : List ℕ
  nextClosureId : ℕ
deriving Repr, DecidableEq

/-- Embedding of `removeScrollListeners` (scroll-sync.js lines 153-160) with
both panes bound: the script creates two fresh arrow closures (identities
`nextClosureId` and `nextClosureId + 1`) and passes them to
`removeEventListener`, which erases a matching closure if one is registered. -/
def removeScrollListeners (s : ListenerState) : ListenerState :=
  { leftListeners := s.leftListeners.erase s.nextClosureId,
    rightListeners := s.rightListeners.erase (s.nextClosureId + 1),
    nextClosureId := s.nextClosureId + 2 }

/-- Embedding of `addScrollListeners` (scroll-sync.js lines 135-150) with
both panes bound: first `removeScrollListeners`, then one fresh arrow
closure is registered per pane via `addEventListener`. -/
def addScrollListeners (s : ListenerState) : ListenerState :=
  let s1 := removeScrollListeners s
  { leftListeners := s1.leftListeners ++ [s1.nextClosureId],
    rightListeners := s1.rightListeners ++ [s1.nextClosureId + 1],
    nextClosureId := s1.nextClosureId + 2 }

/-- Pane A of the spec's explicit-setup scenario: content 2000, visible 500,
offset 750 (no horizontal overflow). -/
def paneA : Pane := ⟨750, 0, 2000, 500, 500, 500⟩

/-- Pane B of the spec's explicit-setup scenario: content 1000, visible 400. -/
def paneB : Pane := ⟨0, 0, 1000, 400, 400, 400⟩

/-- A pane whose content fits exactly (content extent = visible extent). -/
def paneFit : Pane := ⟨0, 0, 400, 400, 400, 400⟩

/-- A document in which selector 1 resolves to element 7 and every other
selector resolves to nothing. -/
def docLookup : ℕ → Option ℕ := fun n => if n = 1 then some 7 else none

/-- A `Math.round` computation is the floor of the argument plus one half. -/
lemma jround_eq (x : ℚ) : jround x = ⌊x + 1 / 2⌋ := by
  simp [jround, Rat.floor_def', Rat.floor_def]

/-- During a propagation pass (guard flag clear, sync enabled) the target's
new vertical offset is the rounded proportional mapping computed by
`syncScroll`. -/
lemma syncScroll_target_scrollTop (src tgt : Pane) :
    (syncScroll false true src tgt).target.scrollTop
      = (jround (maxScrollTop1 tgt * (src.scrollTop / maxScrollTop1 src)) : ℚ) := by
  simp [syncScroll]

/-- While the guard flag is set, any number of further scroll events assign
no offsets at all. -/
lemma processEvents_suspended (es : List PaneId) :
    ∀ s : EngineState, s.isScrolling = true →
      (processEvents s es).2.leftCount = 0 ∧ (processEvents s es).2.rightCount = 0 := by
  induction es with
  | nil => intro s h; exact ⟨rfl, rfl⟩
  | cons e es ih =>
    intro s h
    cases e
    case left =>
      have h1 : (handleEvent s PaneId.left).1.isScrolling = true := by
        simp [handleEvent, syncScroll, h]
      have h2 : (handleEvent s PaneId.left).2 = false := by
        simp [handleEvent, syncScroll, h]
      obtain ⟨hl, hr⟩ := ih _ h1
      simp [processEvents, hl, hr, h2]
    case right =>
      have h1 : (handleEvent s PaneId.right).1.isScrolling = true := by
        simp [handleEvent, syncScroll, h]
      have h2 : (handleEvent s PaneId.right).2 = false := by
        simp [handleEvent, syncScroll, h]
      obtain ⟨hl, hr⟩ := ih _ h1
      simp [processEvents, hl, hr, h2]

/-- C1: for every propagation pass from a source pane to a target pane, the
target's new vertical offset equals
`round(targetMaxScroll * sourceOffset / sourceMaxScroll)` where each
max-scroll is `max(1, contentExtent - visibleExtent)`; in particular, with
source contentExtent 2000, visibleExtent 500, offset 750 and target
contentExtent 1000, visibleExtent 400, the target offset becomes 300. -/
theorem propagation_ratio_formula :
    (∀ src tgt : Pane,
        (syncScroll false true src tgt).target.scrollTop
          = (jround (maxScrollTop1 tgt * src.scrollTop / maxScrollTop1 src) : ℚ)) ∧
    (syncScroll false true paneA paneB).target.scrollTop = 300 := by
  constructor
  · intro src tgt
    rw [syncScroll_target_scrollTop, mul_div_assoc]
  · norm_num [syncScroll, paneA, paneB, maxScrollTop1, maxScrollLeft1, jround_eq]

/-- C2: starting enabled and idle, a scroll event on pane A (here the left
pane) followed by any further scroll events with no settle timeout in
between assigns offsets to the opposite pane at most once and never assigns
any offset back onto the source pane: the guard flag is set before the
mutation and every event arriving while it is set performs no mutation. -/
theorem guard_single_mutation (s : EngineState) (es : List PaneId)
    (hidle : s.isScrolling = false) (hen : s.syncEnabled = true) :
    (processEvents s (PaneId.left :: es)).2.leftCount = 0 ∧
    (processEvents s (PaneId.left :: es)).2.rightCount ≤ 1 := by
  have hflag : (handleEvent s PaneId.left).1.isScrolling = true := by
    simp [handleEvent, syncScroll, hidle, hen]
  obtain ⟨hl, hr⟩ := processEvents_suspended es _ hflag
  constructor
  · simpa [processEvents] using hl
  · simp [processEvents, hr]
    split <;> simp

/-- Witness for C2: one pass with the scenario panes, source event on the
left pane followed by the echo event on the right pane. -/
theorem guard_single_mutation_witness :
    (processEvents ⟨paneA, paneB, false, true⟩ [PaneId.left, PaneId.right]).2.leftCount = 0 ∧
    (processEvents ⟨paneA, paneB, false, true⟩ [PaneId.left, PaneId.right]).2.rightCount ≤ 1 :=
  guard_single_mutation ⟨paneA, paneB, false, true⟩ [PaneId.right] rfl rfl

/-- C3 counterexample: the sync engine floors the target max-scroll at 1
rather than 0, so a target pane whose content fits exactly receives offset 1
(not 0) when the source sits at half scroll: `syncScroll` applied to the
scenario source pane and a fitting target assigns scrollTop 1, while the
claimed formula `round(p * max(0, contentExtent - visibleExtent))` yields 0. -/
theorem engine_fitting_pane_offset_one :
    (syncScroll false true paneA paneFit).target.scrollTop = 1 ∧
    (jround (paneA.scrollTop / maxScrollTop1 paneA
        * max 0 (paneFit.scrollHeight - paneFit.clientHeight)) : ℚ) = 0 ∧
    (1 : ℚ) ≠ 0 := by
  refine ⟨?_, ?_, by norm_num⟩
  · norm_num [syncScroll, paneA, paneFit, maxScrollTop1, maxScrollLeft1, jround_eq]
  · norm_num [paneA, paneFit, maxScrollTop1, jround_eq]

/-- C3 as amended: in the middle controller the absolute offset applied to
each pane is `round(max(0, contentExtent - visibleExtent) * p/100)` from that
pane's own extents; with a clamped position and integral extents the offset
lies within the pane's own scroll range, and a pane whose content fits
receives exactly 0.  In the sync engine, by contrast, the target max-scroll
is floored at 1: the offset applied is
`round(max(1, contentExtent - visibleExtent) * ratio)`. -/
theorem absolute_offset_per_pane (s : ControlState) (l r : Pane) (pos : ℚ)
    (hl : s.leftContainer = some l) (hr : s.rightContainer = some r)
    (h0 : 0 ≤ pos) (h1 : pos ≤ 100)
    (hn : ∃ n : ℤ, (n : ℚ) = l.scrollHeight - l.clientHeight) :
    (scrollToPosition s pos).leftContainer
        = some { l with scrollTop :=
            (jround (max 0 (l.scrollHeight - l.clientHeight) * (pos / 100)) : ℚ) } ∧
    (scrollToPosition s pos).rightContainer
        = some { r with scrollTop :=
            (jround (max 0 (r.scrollHeight - r.clientHeight) * (pos / 100)) : ℚ) } ∧
    (0 : ℚ) ≤ (jround (max 0 (l.scrollHeight - l.clientHeight) * (pos / 100)) : ℚ) ∧
    (jround (max 0 (l.scrollHeight - l.clientHeight) * (pos / 100)) : ℚ)
        ≤ max 0 (l.scrollHeight - l.clientHeight) ∧
    (l.scrollHeight ≤ l.clientHeight →
        (jround (max 0 (l.scrollHeight - l.clientHeight) * (pos / 100)) : ℚ) = 0) ∧
    (∀ src tgt : Pane, (syncScroll false true src tgt).target.scrollTop
        = (jround (maxScrollTop1 tgt * (src.scrollTop / maxScrollTop1 src)) : ℚ)) := by
  obtain ⟨n, hneq⟩ := hn
  have hM0 : (0:ℚ) ≤ max 0 (l.scrollHeight - l.clientHeight) := le_max_left _ _
  have hfr0 : (0:ℚ) ≤ pos / 100 := by positivity
  have hfr1 : pos / 100 ≤ 1 := by
    rw [div_le_one (by norm_num : (0:ℚ) < 100)]; exact h1
  have hx0 : (0:ℚ) ≤ max 0 (l.scrollHeight - l.clientHeight) * (pos / 100) :=
    mul_nonneg hM0 hfr0
  have hx1 : max 0 (l.scrollHeight - l.clientHeight) * (pos / 100)
      ≤ max 0 (l.scrollHeight - l.clientHeight) :=
    mul_le_of_le_one_right hM0 hfr1
  have hMcast : max 0 (l.scrollHeight - l.clientHeight) = ((max 0 n : ℤ) : ℚ) := by
    rw [← hneq]; push_cast; rfl
  refine ⟨by simp [scrollToPosition, hl, hr], by simp [scrollToPosition, hl, hr], ?_, ?_, ?_,
    fun src tgt => syncScroll_target_scrollTop src tgt⟩
  · rw [jround_eq]
    exact_mod_cast Int.floor_nonneg.mpr (by linarith)
  · have hfl : ⌊((max 0 n : ℤ) : ℚ) * (pos / 100) + 1/2⌋ ≤ (max 0 n : ℤ) := by
      apply Int.floor_le_iff.mpr
      rw [← hMcast]
      linarith
    rw [jround_eq, hMcast]
    exact_mod_cast hfl
  · intro hfit
    have hz : max 0 (l.scrollHeight - l.clientHeight) = 0 := max_eq_left (by linarith)
    rw [hz, zero_mul, jround_eq]
    norm_num

/-- Witness for C3 as amended: the scenario panes at position 75. -/
theorem absolute_offset_per_pane_witness :
    (scrollToPosition ⟨0, some paneA, some paneB⟩ 75).leftContainer
        = some { paneA with scrollTop :=
            (jround (max 0 (paneA.scrollHeight - paneA.clientHeight) * ((75:ℚ) / 100)) : ℚ) } ∧
    (scrollToPosition ⟨0, some paneA, some paneB⟩ 75).rightContainer
        = some { paneB with scrollTop :=
            (jround (max 0 (paneB.scrollHeight - paneB.clientHeight) * ((75:ℚ) / 100)) : ℚ) } ∧
    (0 : ℚ) ≤ (jround (max 0 (paneA.scrollHeight - paneA.clientHeight) * ((75:ℚ) / 100)) : ℚ) ∧
    (jround (max 0 (paneA.scrollHeight - paneA.clientHeight) * ((75:ℚ) / 100)) : ℚ)
        ≤ max 0 (paneA.scrollHeight - paneA.clientHeight) ∧
    (paneA.scrollHeight ≤ paneA.clientHeight →
        (jround (max 0 (paneA.scrollHeight - paneA.clientHeight) * ((75:ℚ) / 100)) : ℚ) = 0) ∧
    (∀ src tgt : Pane, (syncScroll false true src tgt).target.scrollTop
        = (jround (maxScrollTop1 tgt * (src.scrollTop / maxScrollTop1 src)) : ℚ)) :=
  absolute_offset_per_pane ⟨0, some paneA, some paneB⟩ paneA paneB 75 rfl rfl
    (by norm_num) (by norm_num) ⟨1500, by norm_num [paneA]⟩

/-- C4 evidence: binding is not idempotent.  One `addScrollListeners` call
leaves one scroll listener per pane, but a second call leaves two per pane,
because `removeScrollListeners` passes freshly created arrow closures to
`removeEventListener`, which therefore removes nothing. -/
theorem double_bind_two_listeners :
    (addScrollListeners ⟨[], [], 0⟩).leftListeners.length = 1 ∧
    (addScrollListeners ⟨[], [], 0⟩).rightListeners.length = 1 ∧
    (addScrollListeners (addScrollListeners ⟨[], [], 0⟩)).leftListeners.length = 2 ∧
    (addScrollListeners (addScrollListeners ⟨[], [], 0⟩)).rightListeners.length = 2 := by
  decide

/-- C5 counterexample: with a previous binding in place, a `setPanes` call
whose left selector fails still attempts the right lookup and overwrites
both pane references, leaving a half-updated binding (left `none`, right
freshly resolved) rather than the unchanged previous one. -/
theorem setPanes_overwrites_on_failure :
    setPanes docLookup ⟨some 1, some 2⟩ 0 1
      = (⟨none, some 7⟩, false, some SetPanesError.leftNotFound) ∧
    (setPanes docLookup ⟨some 1, some 2⟩ 0 1).1 ≠ (⟨some 1, some 2⟩ : PaneRefs) := by
  decide

/-- C5 as amended: `setPanes` always performs both lookups and assigns both
pane references to the lookup results before validating; it succeeds iff
both resolve, and reports the distinct error of the failing side (left
checked first), leaving the references at the new lookup results rather than
the previous binding. -/
theorem setPanes_always_assigns (qs : ℕ → Option ℕ) (prev : PaneRefs) (lSel rSel : ℕ) :
    (setPanes qs prev lSel rSel).1 = ⟨qs lSel, qs rSel⟩ ∧
    ((setPanes qs prev lSel rSel).2.1 = true ↔ (qs lSel).isSome ∧ (qs rSel).isSome) ∧
    ((setPanes qs prev lSel rSel).2.2 = some SetPanesError.leftNotFound ↔ qs lSel = none) ∧
    ((setPanes qs prev lSel rSel).2.2 = some SetPanesError.rightNotFound
        ↔ (qs lSel).isSome ∧ qs rSel = none) := by
  rcases hL : qs lSel with _ | a <;> rcases hR : qs rSel with _ | b <;>
    simp [setPanes, hL, hR]

/-- C6: a pane whose content fits (contentExtent at most visibleExtent),
holding the host-clamped offset invariant, yields normalized position
exactly 0 in the sync engine's ratio and 0 in the middle controller's
displayed position, and the denominator floored at 1 is strictly positive,
so no division by zero occurs. -/
theorem degenerate_pane_zero_position (p : Pane) (q : ℚ) (r : Option Pane)
    (hfit : p.scrollHeight ≤ p.clientHeight)
    (hlo : 0 ≤ p.scrollTop)
    (hhi : p.scrollTop ≤ max 0 (p.scrollHeight - p.clientHeight)) :
    p.scrollTop / maxScrollTop1 p = 0 ∧
    (0 : ℚ) < maxScrollTop1 p ∧
    (updateScrollPosition ⟨q, some p, r⟩).scrollPosition = 0 := by
  have hz : max 0 (p.scrollHeight - p.clientHeight) = 0 := max_eq_left (by linarith)
  have hst : p.scrollTop = 0 := le_antisymm (by rw [hz] at hhi; exact hhi) hlo
  have hm1 : maxScrollTop1 p = 1 := max_eq_left (by linarith)
  refine ⟨by rw [hst, zero_div], by rw [hm1]; norm_num, ?_⟩
  simp [updateScrollPosition, hst]

/-- Witness for C6: the fitting pane with offset 0 and a displayed position
of 37 beforehand. -/
theorem degenerate_pane_zero_position_witness :
    paneFit.scrollTop / maxScrollTop1 paneFit = 0 ∧
    (0 : ℚ) < maxScrollTop1 paneFit ∧
    (updateScrollPosition ⟨37, some paneFit, none⟩).scrollPosition = 0 :=
  degenerate_pane_zero_position paneFit 37 none (by norm_num [paneFit])
    (by norm_num [paneFit]) (by norm_num [paneFit])

/-- C7: while sync is disabled (the enabled flag toggled to false), a scroll
event runs `syncScroll` but the target pane is left completely unchanged, no
offset assignment occurs, and the guard flag keeps its value. -/
theorem disabled_sync_no_mutation (g : Bool) (src tgt : Pane) :
    toggleSync true = false ∧
    (syncScroll g false src tgt).target = tgt ∧
    (syncScroll g false src tgt).didSetScrollOffset = false ∧
    (syncScroll g false src tgt).isScrolling = g := by
  cases g <;> simp [syncScroll, toggleSync]

/-- C8 counterexample: a click at three quarters of the track (position 75)
scrolls both panes but leaves the displayed position at its previous value 0
rather than updating it optimistically to 75; the display only changes later
when the scroll listener fires `updateScrollPosition`. -/
theorem click_does_not_update_displayed_position :
    clickPosition 150 0 200 = 75 ∧
    (handleScrollBarClick ⟨0, some paneA, some paneB⟩ 150 0 200).scrollPosition = 0 ∧
    (0 : ℚ) ≠ 75 := by
  refine ⟨by norm_num [clickPosition], ?_, by norm_num⟩
  norm_num [handleScrollBarClick, scrollToPosition, clickPosition]

/-- C8 as amended: a track click clamps the derived position to [0,100],
invokes `scrollToPosition` with that clamped value, which applies
`round(max(0, contentExtent - visibleExtent) * p/100)` to both panes
independently using each pane's own extents, and leaves the displayed
position unchanged: the display is updated only by the passive scroll-event
listener, not optimistically by the click handler. -/
theorem click_applies_clamped_offsets (s : ControlState) (l r : Pane)
    (clientY rectTop rectHeight : ℚ)
    (hl : s.leftContainer = some l) (hr : s.rightContainer = some r) :
    0 ≤ clickPosition clientY rectTop rectHeight ∧
    clickPosition clientY rectTop rectHeight ≤ 100 ∧
    handleScrollBarClick s clientY rectTop rectHeight
      = scrollToPosition s (clickPosition clientY rectTop rectHeight) ∧
    (scrollToPosition s (clickPosition clientY rectTop rectHeight)).leftContainer
      = some { l with scrollTop :=
          (jround (max 0 (l.scrollHeight - l.clientHeight)
            * (clickPosition clientY rectTop rectHeight / 100)) : ℚ) } ∧
    (scrollToPosition s (clickPosition clientY rectTop rectHeight)).rightContainer
      = some { r with scrollTop :=
          (jround (max 0 (r.scrollHeight - r.clientHeight)
            * (clickPosition clientY rectTop rectHeight / 100)) : ℚ) } ∧
    (handleScrollBarClick s clientY rectTop rectHeight).scrollPosition = s.scrollPosition := by
  refine ⟨le_min (by norm_num) (le_max_left _ _), min_le_left _ _, rfl, ?_, ?_, ?_⟩
  · simp [scrollToPosition, hl, hr]
  · simp [scrollToPosition, hl, hr]
  · simp [handleScrollBarClick, scrollToPosition, hl, hr]

/-- Witness for C8 as amended: the scenario panes, click at 150 of a 200 px
track. -/
theorem click_applies_clamped_offsets_witness :
    0 ≤ clickPosition 150 0 200 ∧
    clickPosition 150 0 200 ≤ 100 ∧
    handleScrollBarClick ⟨0, some paneA, some paneB⟩ 150 0 200
      = scrollToPosition ⟨0, some paneA, some paneB⟩ (clickPosition 150 0 200) ∧
    (scrollToPosition ⟨0, some paneA, some paneB⟩ (clickPosition 150 0 200)).leftContainer
      = some { paneA with scrollTop :=
          (jround (max 0 (paneA.scrollHeight - paneA.clientHeight)
            * (clickPosition 150 0 200 / 100)) : ℚ) } ∧
    (scrollToPosition ⟨0, some paneA, some paneB⟩ (clickPosition 150 0 200)).rightContainer
      = some { paneB with scrollTop :=
          (jround (max 0 (paneB.scrollHeight - paneB.clientHeight)
            * (clickPosition 150 0 200 / 100)) : ℚ) } ∧
    (handleScrollBarClick ⟨0, some paneA, some paneB⟩ 150 0 200).scrollPosition
      = (⟨0, some paneA, some paneB⟩ : ControlState).scrollPosition :=
  click_applies_clamped_offsets ⟨0, some paneA, some paneB⟩ paneA paneB 150 0 200 rfl rfl

/-- C9: from a displayed position within [0,100], the up control invokes
`scrollToPosition` with the position minus 10 clamped to [0,100], the down
control with the position plus 10 clamped to [0,100], and the reset control
with 0. -/
theorem step_controls_clamped (s : ControlState)
    (h0 : 0 ≤ s.scrollPosition) (h1 : s.scrollPosition ≤ 100) :
    scrollUp s = scrollToPosition s (min 100 (max 0 (s.scrollPosition - 10))) ∧
    scrollDown s = scrollToPosition s (min 100 (max 0 (s.scrollPosition + 10))) ∧
    resetScroll s = scrollToPosition s 0 := by
  refine ⟨?_, ?_, rfl⟩
  · rw [scrollUp, min_eq_right (max_le (by norm_num) (by linarith))]
  · rw [scrollDown, max_eq_right (by linarith : (0:ℚ) ≤ s.scrollPosition + 10)]

/-- Witness for C9: displayed position 50. -/
theorem step_controls_clamped_witness :
    scrollUp ⟨50, none, none⟩ = scrollToPosition ⟨50, none, none⟩
        (min 100 (max 0 ((⟨50, none, none⟩ : ControlState).scrollPosition - 10))) ∧
    scrollDown ⟨50, none, none⟩ = scrollToPosition ⟨50, none, none⟩
        (min 100 (max 0 ((⟨50, none, none⟩ : ControlState).scrollPosition + 10))) ∧
    resetScroll ⟨50, none, none⟩ = scrollToPosition ⟨50, none, none⟩ 0 :=
  step_controls_clamped ⟨50, none, none⟩ (by norm_num) (by norm_num)

/-- C10: `scrollToPosition` is all-or-nothing: if either container lookup
yields no element, the whole state is returned unchanged, so it never
scrolls exactly one of the two panes. -/
theorem scrollToPosition_all_or_nothing (s : ControlState) (position : ℚ)
    (h : s.leftContainer = none ∨ s.rightContainer = none) :
    scrollToPosition s position = s := by
  rcases h with h | h <;> simp [scrollToPosition, h]

/-- Witness for C10: the left container missing. -/
theorem scrollToPosition_all_or_nothing_witness :
    scrollToPosition ⟨25, none, some paneB⟩ 40 = ⟨25, none, some paneB⟩ :=
  scrollToPosition_all_or_nothing ⟨25, none, some paneB⟩ 40 (Or.inl rfl)

end ScrollSync
